import Mathlib

/-!
Verification of the VCTapi scraping service.

Shallow embedding of the core pipeline of the repository:
`src/utils/performance.py` (stats tracker), `src/api/async_client.py`
(fetcher retry loop, TTL cache, aggregator entry point) and
`src/api/async_scraper.py` (extractor and aggregator), plus the
live-matches route of `src/routers/vlr_router.py`.

HTML parsing (selectolax) is abstracted: a parsed listing element is a
`MatchElem` record carrying exactly the selector reads the code performs,
a parsed detail page is a `DetailPage`.  Network fetches are oracles:
`Option` results (`none` models a fetch that failed or returned no text).
Machine floats of the stats tracker are modelled over `ℚ`; wall-clock
instants over `ℚ` seconds.
-/

/-! ## Python string helpers -/

/-- Worker for the embedding of Python `str.replace(pat, rep)`: scan left
to right, replace each non-overlapping occurrence of a nonempty pattern.
The structural fuel argument (instantiated with the input length, which
bounds the number of steps) keeps the definition kernel-reducible. -/
def pyReplaceFuel (pat rep : List Char) : ℕ → List Char → List Char
  | _, [] => []
  | 0, s => s
  | fuel + 1, c :: cs =>
    if pat ≠ [] ∧ pat.isPrefixOf (c :: cs) = true then
      rep ++ pyReplaceFuel pat rep fuel (List.drop pat.length (c :: cs))
    else
      c :: pyReplaceFuel pat rep fuel cs

/-- Embedding of Python `str.replace(pat, rep)` on character lists for a
nonempty pattern (all call sites of `.replace` in the code use nonempty
patterns). -/
def pyReplace (s pat rep : List Char) : List Char :=
  pyReplaceFuel pat rep s.length s

/-- `containsSub s pat = true` iff `pat` occurs as a contiguous substring
of `s` (Python `pat in s` for nonempty `pat`). -/
def containsSub (s pat : List Char) : Bool :=
  match s with
  | [] => pat.isEmpty
  | _ :: cs => pat.isPrefixOf s || containsSub cs pat

/-- `str.replace` lifted to `String`. -/
def pyReplaceStr (s pat rep : String) : String :=
  String.mk (pyReplace s.data pat.data rep.data)

/-- Embedding of Python `str.strip()`: drop leading and trailing
whitespace. -/
def pyStrip (s : String) : String :=
  String.mk (((s.data.dropWhile Char.isWhitespace).reverse.dropWhile
    Char.isWhitespace).reverse)

/-- The flag-class token transform of
`async_scraper.py:84-89` / `async_client.py:140-145`:
`.replace(" mod-", "").replace("16", "_")`. -/
def flag_transform (s : String) : String :=
  pyReplaceStr (pyReplaceStr s " mod-" "") "16" "_"

/-! ## Cache (`async_client.py:55-79`) -/

/-- One cache slot: `{'data': ..., 'timestamp': datetime.now()}`
(`_set_cache`).  Instants are rational seconds. -/
structure CacheEntry (α : Type) where
  data : α
  timestamp : ℚ

/-- The `_cache` dict of `VlrClient`, keyed by logical query name. -/
abbrev CacheMap (α : Type) : Type := String → Option (CacheEntry α)

/-- `self._cache_ttl = 30` (`async_client.py:17`). -/
def cache_ttl : ℚ := 30

/-- `VlrClient._is_cache_valid`: an entry is valid iff it exists and
`now - timestamp < timedelta(seconds=30)`.  (The source's
`if not cache_time` guard cannot fire: every stored entry carries a
truthy `datetime`.) -/
def is_cache_valid {α : Type} (cache : CacheMap α) (now : ℚ) (key : String) : Bool :=
  match cache key with
  | none => false
  | some e => decide (now - e.timestamp < cache_ttl)

/-- `VlrClient._get_from_cache`: return the stored payload if the entry is
valid, else `None`. -/
def get_from_cache {α : Type} (cache : CacheMap α) (now : ℚ) (key : String) : Option α :=
  if is_cache_valid cache now key then
    match cache key with
    | none => none
    | some e => some e.data
  else none

/-- `VlrClient._set_cache`: overwrite the slot with the payload and the
current instant. -/
def set_cache {α : Type} (cache : CacheMap α) (key : String) (d : α) (now : ℚ) :
    CacheMap α :=
  fun k => if k = key then some ⟨d, now⟩ else cache k

/-! ## Stats tracker (`utils/performance.py:64-143`) -/

/-- The `performance_stats` global dict.  `average_response_time` is a
Python float, modelled over `ℚ` (every value arising in the claims is
exactly representable in binary floating point, so the model and the code
agree on them). -/
structure Stats where
  total_requests : ℕ
  successful_requests : ℕ
  failed_requests : ℕ
  average_response_time : ℚ
  cache_hits : ℕ
  cache_misses : ℕ
deriving DecidableEq

/-- The initial value of `performance_stats` (`performance.py:65-72`). -/
def initial_performance_stats : Stats :=
  { total_requests := 0, successful_requests := 0, failed_requests := 0
    average_response_time := 0, cache_hits := 0, cache_misses := 0 }

/-- `reset_performance_stats` (`performance.py:133-143`): reassign the
dict to all zeroes. -/
def reset_performance_stats : Stats := initial_performance_stats

/-- `get_performance_stats` (`performance.py:129-131`): returns
`performance_stats.copy()` — a snapshot, no mutation. -/
def get_performance_stats (s : Stats) : Stats := s

/-- One completed `track_request`-wrapped call (`performance.py:77-122`;
the async and sync wrappers mutate the dict identically).  The wrapped
call's outcome is `Except.ok` (returned normally, with measured elapsed
seconds) or `Except.error` (raised; the exception is re-raised unchanged,
modelled by returning it).  `total_requests` is incremented before the
call; on success `successful_requests` is incremented and the running
mean updated with the new count; on failure only `failed_requests` is
incremented. -/
def track_request {E A : Type} (s : Stats) (outcome : Except E A) (elapsed : ℚ) :
    Stats × Except E A :=
  let s1 : Stats := { s with total_requests := s.total_requests + 1 }
  match outcome with
  | Except.ok a =>
    let s2 : Stats := { s1 with successful_requests := s1.successful_requests + 1 }
    let n : ℚ := (s2.successful_requests : ℚ)
    let s3 : Stats :=
      { s2 with average_response_time :=
          (s2.average_response_time * (n - 1) + elapsed) / n }
    (s3, Except.ok a)
  | Except.error e =>
    ({ s1 with failed_requests := s1.failed_requests + 1 }, Except.error e)

/-- The operations that touch `performance_stats`: a tracked call that
succeeds or fails, an explicit reset, and a stats read (which copies and
does not mutate). -/
inductive StatsOp where
  | call (failed : Bool) (elapsed : ℚ)
  | reset
  | snapshot
deriving DecidableEq

/-- Effect of one operation on the global stats dict. -/
def apply_stats_op (s : Stats) : StatsOp → Stats
  | StatsOp.call false t => (track_request s (Except.ok () : Except Unit Unit) t).1
  | StatsOp.call true t => (track_request s (Except.error () : Except Unit Unit) t).1
  | StatsOp.reset => reset_performance_stats
  | StatsOp.snapshot => get_performance_stats s

/-! ## Fetcher retry loop (`async_client.py:81-107`) -/

/-- Outcome of one HTTP attempt inside `_make_request`: a response with a
status code and body text, a transport timeout, or a client error. -/
inductive AttemptOutcome where
  | response (status : ℕ) (text : String)
  | timeout
  | clientError
deriving DecidableEq

/-- The sleeps performed during one non-returning loop iteration of
`_make_request`: the 429 branch sleeps `2 ** attempt`
(`async_client.py:92-94`), and the loop footer sleeps `2 ** attempt`
again whenever `attempt < max_retries - 1` (`async_client.py:103-104`). -/
def sleeps_in_iteration (outcome : AttemptOutcome) (max_retries attempt : ℕ) :
    List ℕ :=
  (match outcome with
   | AttemptOutcome.response status _ => if status = 429 then [2 ^ attempt] else []
   | _ => []) ++
  (if attempt < max_retries - 1 then [2 ^ attempt] else [])

/-- The retry loop of `_make_request` from a given attempt index, driven
by an oracle giving the outcome of each attempt.  `remaining` counts the
iterations of `range(max_retries)` still to run (the caller passes
`max_retries`, so `remaining = max_retries - attempt`).  Returns the
result (`some text` on a 200, `None` after exhausting retries) paired
with the chronological trace of sleep durations in seconds. -/
def make_request_loop (oracle : ℕ → AttemptOutcome) (max_retries : ℕ) :
    ℕ → ℕ → Option String × List ℕ
  | 0, _ => (none, [])
  | remaining + 1, attempt =>
    match oracle attempt with
    | AttemptOutcome.response status text =>
      if status = 200 then (some text, [])
      else
        let rest := make_request_loop oracle max_retries remaining (attempt + 1)
        (rest.1,
          sleeps_in_iteration (AttemptOutcome.response status text) max_retries attempt
            ++ rest.2)
    | AttemptOutcome.timeout =>
      let rest := make_request_loop oracle max_retries remaining (attempt + 1)
      (rest.1, sleeps_in_iteration AttemptOutcome.timeout max_retries attempt ++ rest.2)
    | AttemptOutcome.clientError =>
      let rest := make_request_loop oracle max_retries remaining (attempt + 1)
      (rest.1,
        sleeps_in_iteration AttemptOutcome.clientError max_retries attempt ++ rest.2)

/-- `_make_request` with its default `max_retries = 3`, starting at
attempt 0. -/
def make_request (oracle : ℕ → AttemptOutcome) : Option String × List ℕ :=
  make_request_loop oracle 3 3 0

/-! ## Timestamp formatting

`datetime.fromtimestamp(ts, tz=timezone.utc).strftime("%Y-%m-%d %H:%M:%S")`
(`async_scraper.py:101-104`), implemented over `Int` epoch seconds with
the standard civil-from-days calendar algorithm. -/

/-- Zero-pad a natural below 100 to two digits (strftime `%H`/`%M`/`%S`,
`%m`/`%d`). -/
def pad2 (n : ℕ) : String :=
  if n < 10 then "0" ++ toString n else toString n

/-- strftime `%Y`: the year, zero-padded to four digits. -/
def pad4 (y : ℤ) : String :=
  if y < 0 then toString y
  else if y < 10 then "000" ++ toString y
  else if y < 100 then "00" ++ toString y
  else if y < 1000 then "0" ++ toString y
  else toString y

/-- Convert days since the Unix epoch to a proleptic Gregorian civil date
(year, month, day). -/
def civilFromDays (z : ℤ) : ℤ × ℕ × ℕ :=
  let z' := z + 719468
  let era : ℤ := z'.fdiv 146097
  let doe : ℤ := z' - era * 146097
  let yoe : ℤ := (doe - doe.fdiv 1460 + doe.fdiv 36524 - doe.fdiv 146096).fdiv 365
  let y : ℤ := yoe + era * 400
  let doy : ℤ := doe - (365 * yoe + yoe.fdiv 4 - yoe.fdiv 100)
  let mp : ℤ := (5 * doy + 2).fdiv 153
  let d : ℤ := doy - (153 * mp + 2).fdiv 5 + 1
  let m : ℤ := mp + (if mp < 10 then 3 else -9)
  (y + (if m ≤ 2 then 1 else 0), m.toNat, d.toNat)

/-- Epoch seconds to `"YYYY-MM-DD HH:MM:SS"` in UTC. -/
def formatTimestampUtc (ts : ℤ) : String :=
  let days := ts.fdiv 86400
  let secsOfDay := (ts - days * 86400).toNat
  let ymd := civilFromDays days
  pad4 ymd.1 ++ "-" ++ pad2 ymd.2.1 ++ "-" ++ pad2 ymd.2.2 ++ " " ++
    pad2 (secsOfDay / 3600) ++ ":" ++ pad2 (secsOfDay % 3600 / 60) ++ ":" ++
    pad2 (secsOfDay % 60)

/-! ## Extractor input model

A parsed listing match element (`selectolax` node) is abstracted by the
selector reads `_process_live_match_optimized` performs on it; an `Option`
field is `none` when the selector or attribute is absent, in which case
the source raises (`AttributeError`/`KeyError`) at that read. -/

/-- One `.h-match-team` sub-element of a listing match. -/
structure TeamElem where
  name : Option String
  flagClass : Option String
  score : Option String
  roundCt : List String
  roundT : List String
deriving DecidableEq

/-- One `.js-home-matches-upcoming a.wf-module-item` anchor.  `isLive`
models the presence of an `.h-match-eta.mod-live` child; `utcTs` is the
`data-utc-ts` attribute already parsed by Python `int` (`none` when the
element/attribute is missing or the text is not an integer, where the
source raises). -/
structure MatchElem where
  isLive : Bool
  teams : List TeamElem
  previewEvent : Option String
  previewSeries : Option String
  utcTs : Option ℤ
  href : Option String
deriving DecidableEq

/-- The `.vm-stats-gamesnav-item.js-map-switch.mod-active.mod-live`
element of a detail page.  `divText` is the text of its first `div`
child; when no `div` child exists, `css_first("div", default="Unknown")`
returns the *string* `"Unknown"` and the subsequent `.text()` call raises
`AttributeError` (caught by `_get_match_details`' blanket handler). -/
structure MapTab where
  divText : Option String
deriving DecidableEq

/-- A fetched and parsed match detail page: the `src` attributes of the
`.match-header-vs img` elements (each `attributes.get("src", "")`, so a
missing attribute yields `""`), and the active-live map tab if present. -/
structure DetailPage where
  imgSrcs : List (Option String)
  activeMapTab : Option MapTab
deriving DecidableEq

/-- `VlrClient._get_match_details` (`async_client.py:197-234`) given the
fetch outcome for the detail page (`none` models `_make_request` yielding
`None` or empty text).  Never raises to its caller: every exception is
caught and converted to `([], "Unknown", "Unknown")`. -/
def get_match_details (page : Option DetailPage) : List String × String × String :=
  match page with
  | none => ([], "Unknown", "Unknown")
  | some p =>
    let team_logos := p.imgSrcs.map (fun src => "https:" ++ src.getD "")
    match p.activeMapTab with
    | none => (team_logos, "Unknown", "Unknown")
    | some tab =>
      match tab.divText with
      | none => ([], "Unknown", "Unknown")
      | some t0 =>
        let map_text := pyReplaceStr (pyReplaceStr (pyStrip t0) "\n" "") "\t" ""
        let current_map := String.mk (map_text.data.dropWhile Char.isDigit)
        let digits := map_text.data.takeWhile Char.isDigit
        let map_number := if digits.isEmpty then "Unknown" else String.mk digits
        (team_logos, current_map, map_number)

/-! ## Extractor (`async_scraper.py:73-147`) -/

/-- A match record: a Python dict with string keys and string values,
in insertion order. -/
abbrev Rec : Type := List (String × String)

/-- Python `d[k] = v` on a dict: overwrite in place if the key exists,
else append a new key at the end. -/
def dictSet (d : Rec) (k v : String) : Rec :=
  if (List.lookup k d).isSome then
    d.map (fun p => if p.1 = k then (k, v) else p)
  else d ++ [(k, v)]

/-- The data the team loop (`async_scraper.py:82-96`) accumulates for one
`.h-match-team` element. -/
structure TeamRow where
  name : String
  flag : String
  score : String
  roundCt : String
  roundT : String
deriving DecidableEq

/-- One iteration of the team loop: name/flag/score reads raise when the
selector or attribute is absent (propagating to the per-match handler);
missing round-info sub-elements default to `"N/A"`. -/
def extract_team_row (t : TeamElem) : Option TeamRow :=
  match t.name, t.flagClass, t.score with
  | some nm, some fc, some sc =>
    some
      { name := pyStrip nm
        flag := flag_transform fc
        score := pyStrip sc
        roundCt := match t.roundCt with | [] => "N/A" | x :: _ => pyStrip x
        roundT := match t.roundT with | [] => "N/A" | x :: _ => pyStrip x }
  | _, _, _ => none

/-- The basic extraction of `_process_live_match_optimized`
(`async_scraper.py:75-105` and the `teams[0]`/`teams[1]` indexing of the
dict literal): `none` models any raised exception — a missing selector or
attribute, or fewer than two team elements. -/
structure BaseData where
  row1 : TeamRow
  row2 : TeamRow
  ev : String
  se : String
  ts : ℤ
  href : String
deriving DecidableEq

/-- Perform the basic extraction; `none` iff the source's per-match
handler would catch an exception and return `{}`. -/
def extract_base (m : MatchElem) : Option BaseData :=
  match m.teams.mapM extract_team_row with
  | none => none
  | some rows =>
    match rows[0]?, rows[1]?, m.previewEvent, m.previewSeries, m.utcTs, m.href with
    | some r0, some r1, some ev, some se, some ts, some href =>
      some { row1 := r0, row2 := r1, ev := pyStrip ev, se := pyStrip se, ts := ts,
             href := href }
    | _, _, _, _, _, _ => none

/-- Assemble the match dict (`async_scraper.py:107-128`) and merge the
detail-page data (`async_scraper.py:130-141`).  `get_match_details`
catches all its own errors, so the merge always completes; a failed
detail fetch contributes empty logos and `"Unknown"` map fields. -/
def build_record (detailOf : String → Option DetailPage) (b : BaseData) : Rec :=
  let url_path := "https://www.vlr.gg/" ++ b.href
  let det := get_match_details (detailOf url_path)
  let team_logos := det.1
  [("team1", b.row1.name), ("team2", b.row2.name),
   ("flag1", b.row1.flag), ("flag2", b.row2.flag),
   ("score1", b.row1.score), ("score2", b.row2.score),
   ("team1_round_ct", b.row1.roundCt), ("team1_round_t", b.row1.roundT),
   ("team2_round_ct", b.row2.roundCt), ("team2_round_t", b.row2.roundT),
   ("time_until_match", "LIVE"),
   ("match_event", b.ev), ("match_series", b.se),
   ("unix_timestamp", formatTimestampUtc b.ts),
   ("match_page", url_path),
   ("team1_logo", (team_logos[0]?).getD ""),
   ("team2_logo", (team_logos[1]?).getD ""),
   ("map_number", det.2.2), ("current_map", det.2.1)]

/-- `AsyncVlrScraper._process_live_match_optimized`: the full per-match
task; any extraction exception is caught and yields the empty dict. -/
def process_live_match_optimized (detailOf : String → Option DetailPage)
    (m : MatchElem) : Rec :=
  match extract_base m with
  | some b => build_record detailOf b
  | none => []

/-! ## Aggregator (`async_scraper.py:15-71`) -/

/-- The sentinel record returned when no live-flagged entries exist
(`async_scraper.py:31-52`). -/
def no_game_match : Rec :=
  [("team1", ""), ("team2", ""), ("flag1", ""), ("flag2", ""),
   ("score1", ""), ("score2", ""),
   ("team1_round_ct", ""), ("team1_round_t", ""),
   ("team2_round_ct", ""), ("team2_round_t", ""),
   ("time_until_match", ""), ("match_event", ""), ("match_series", ""),
   ("unix_timestamp", ""), ("match_page", ""),
   ("team1_logo", ""), ("team2_logo", ""),
   ("map_number", ""), ("current_map", ""),
   ("klurgecustom", "no game is live")]

/-- An aggregator / endpoint response dict: `"status"` plus an optional
`"data"` list of records and an optional `"message"`.  (Every response
the code builds has exactly this shape and is a nonempty dict, hence
always truthy.) -/
structure Response where
  status : String
  data : Option (List Rec)
  message : Option String
deriving DecidableEq

/-- The key used by the cosmetic annotation loop (`async_scraper.py:64`):
`klurgecustom` for index 0, `klurgecustom{idx+1}` afterwards. -/
def tag_key (idx : ℕ) : String :=
  if idx > 0 then "klurgecustom" ++ toString (idx + 1) else "klurgecustom"

/-- The annotation value `f"{team1} {score1} : {team2} {score2}"`
(`async_scraper.py:65`).  Every record reaching the loop was produced by
`build_record` and therefore carries all four keys. -/
def score_tag (r : Rec) : String :=
  (List.lookup "team1" r).getD "" ++ " " ++ (List.lookup "score1" r).getD "" ++
    " : " ++ (List.lookup "team2" r).getD "" ++ " " ++
    (List.lookup "score2" r).getD ""

/-- The annotation loop (`async_scraper.py:63-65`). -/
def annotate_all (rs : List Rec) : List Rec :=
  rs.enum.map (fun p => dictSet p.2 (tag_key p.1) (score_tag p.2))

/-- `AsyncVlrScraper.get_live_matches_optimized`: `listing` is the fetch
and parse outcome of the listing page (`none` models `_make_request`
returning `None` or empty text); `detailOf` gives each detail-page URL's
fetch outcome.  The per-match tasks never raise (each catches its own
exceptions), so `asyncio.gather(..., return_exceptions=True)` yields
exactly the per-match dicts, and the filter keeps the nonempty ones. -/
def get_live_matches_optimized (listing : Option (List MatchElem))
    (detailOf : String → Option DetailPage) : Response :=
  match listing with
  | none => Response.mk "error" none (some "Failed to fetch live matches")
  | some elems =>
    let live_matches := elems.filter (fun m => m.isLive)
    if live_matches.isEmpty then
      Response.mk "success" (some [no_game_match]) none
    else
      let results := live_matches.map (process_live_match_optimized detailOf)
      let valid_results := results.filter (fun r => !List.isEmpty r)
      Response.mk "success" (some (annotate_all valid_results)) none

/-! ## Aggregator entry point with cache (`async_client.py:109-124`) -/

/-- `VlrClient.get_live_matches`: read-through the `"live_matches"` cache
slot (a cached response dict is nonempty, hence truthy); on a miss run
the scraper — which returns rather than raises on failure — and cache
whatever it returned, success or error.  Returns the response and the
updated cache. -/
def client_get_live_matches (cache : CacheMap Response) (now : ℚ)
    (listing : Option (List MatchElem)) (detailOf : String → Option DetailPage) :
    Response × CacheMap Response :=
  match get_from_cache cache now "live_matches" with
  | some cached => (cached, cache)
  | none =>
    let result := get_live_matches_optimized listing detailOf
    (result, set_cache cache "live_matches" result now)

/-! ## Live-matches route (`routers/vlr_router.py:9-21`) -/

/-- The `/matches/live` handler body after the aggregator call: if
`result.get('data')` is falsy (key absent or empty list) the handler
returns a fresh success envelope, else the aggregator result unchanged.
(`not result` never fires: the result dict is nonempty.) -/
def router_get_live_matches (result : Response) : Response :=
  let dataTruthy : Bool :=
    match result.data with
    | some (_ :: _) => true
    | _ => false
  if dataTruthy then result
  else Response.mk "success" (some [])
    (some "No live matches currently available.")

/-! ## Concrete fixtures -/

/-- A non-live listing entry. -/
def upcoming_match_elem : MatchElem :=
  { isLive := false, teams := [], previewEvent := none, previewSeries := none,
    utcTs := none, href := none }

/-- A live listing entry whose basic extraction succeeds but whose detail
page is at `https://www.vlr.gg/m/1`. -/
def live_match_a : MatchElem :=
  { isLive := true
    teams :=
      [{ name := some "A1", flagClass := some "flag mod-us mod-16",
         score := some "1", roundCt := ["9"], roundT := ["3"] },
       { name := some "A2", flagClass := some "flag mod-br",
         score := some "0", roundCt := [], roundT := [] }]
    previewEvent := some "EventA", previewSeries := some "SeriesA"
    utcTs := some 0, href := some "m/1" }

/-- A live listing entry whose basic extraction succeeds, detail page at
`https://www.vlr.gg/m/2`. -/
def live_match_b : MatchElem :=
  { isLive := true
    teams :=
      [{ name := some "B1", flagClass := some "flag mod-eu",
         score := some "2", roundCt := ["5"], roundT := ["7"] },
       { name := some "B2", flagClass := some "flag mod-kr",
         score := some "1", roundCt := [], roundT := [] }]
    previewEvent := some "EventB", previewSeries := some "SeriesB"
    utcTs := some 0, href := some "m/2" }

/-- A live listing entry whose basic extraction raises: its anchor has no
`href` attribute. -/
def live_match_bad : MatchElem :=
  { isLive := true
    teams :=
      [{ name := some "C1", flagClass := some "flag mod-jp",
         score := some "0", roundCt := [], roundT := [] },
       { name := some "C2", flagClass := some "flag mod-cn",
         score := some "0", roundCt := [], roundT := [] }]
    previewEvent := some "EventC", previewSeries := some "SeriesC"
    utcTs := some 0, href := none }

/-- A detail oracle: the fetch of match B's page succeeds, every other
fetch (in particular match A's) fails. -/
def details_b_only : String → Option DetailPage := fun url =>
  if url = "https://www.vlr.gg/m/2" then
    some { imgSrcs := [some "//i2a", some "//i2b"],
           activeMapTab := some { divText := some "2Bind" } }
  else none

/-- The basic extraction of `live_match_a`. -/
def base_a : BaseData :=
  { row1 := { name := "A1", flag := "flagus_", score := "1", roundCt := "9",
              roundT := "3" }
    row2 := { name := "A2", flag := "flagbr", score := "0", roundCt := "N/A",
              roundT := "N/A" }
    ev := "EventA", se := "SeriesA", ts := 0, href := "m/1" }

/-! ## Helper lemmas -/

/-- The `str.replace` worker is the identity when the pattern does not
occur, whatever the fuel. -/
theorem pyReplaceFuel_id (pat rep : List Char) :
    ∀ (fuel : ℕ) (s : List Char), containsSub s pat = false →
      pyReplaceFuel pat rep fuel s = s := by
  intro fuel
  induction fuel with
  | zero => intro s _; cases s <;> rfl
  | succ n ih =>
    intro s h
    cases s with
    | nil => rfl
    | cons c cs =>
      simp only [containsSub, Bool.or_eq_false_iff] at h
      rw [pyReplaceFuel, if_neg, ih cs h.2]
      rintro ⟨_, hpre⟩
      rw [h.1] at hpre
      exact Bool.false_ne_true hpre

/-- `str.replace` is the identity when the pattern does not occur. -/
theorem pyReplace_id_of_not_contains (pat rep : List Char) :
    ∀ s : List Char, containsSub s pat = false → pyReplace s pat rep = s :=
  fun s h => pyReplaceFuel_id pat rep s.length s h

/-- `pyReplaceStr` is the identity when the pattern does not occur. -/
theorem pyReplaceStr_id (s pat rep : String)
    (h : containsSub s.data pat.data = false) : pyReplaceStr s pat rep = s := by
  unfold pyReplaceStr
  rw [pyReplace_id_of_not_contains _ _ _ h]

/-- A freshly written cache entry is returned while the TTL has not
elapsed. -/
theorem get_set_within {α : Type} (cache : CacheMap α) (key : String) (d : α)
    (t0 t : ℚ) (h : t - t0 < 30) :
    get_from_cache (set_cache cache key d t0) t key = some d := by
  unfold get_from_cache is_cache_valid set_cache cache_ttl
  simp [h]

/-- A cache entry is treated as absent once the TTL has elapsed. -/
theorem get_set_after {α : Type} (cache : CacheMap α) (key : String) (d : α)
    (t0 t : ℚ) (h : 30 ≤ t - t0) :
    get_from_cache (set_cache cache key d t0) t key = none := by
  unfold get_from_cache is_cache_valid set_cache cache_ttl
  have : ¬ (t - t0 < 30) := not_lt.mpr h
  simp [this]

/-- A record built from a successful basic extraction is never the empty
dict. -/
theorem build_record_ne_nil (detailOf : String → Option DetailPage) (b : BaseData) :
    build_record detailOf b ≠ [] := by
  simp [build_record]

/-- A match whose basic extraction succeeds yields a nonempty record,
whatever the detail oracle returns. -/
theorem process_ne_nil_of_isSome (detailOf : String → Option DetailPage)
    (m : MatchElem) (h : (extract_base m).isSome) :
    process_live_match_optimized detailOf m ≠ [] := by
  unfold process_live_match_optimized
  cases hb : extract_base m with
  | some b => exact build_record_ne_nil detailOf b
  | none => rw [hb] at h; simp at h

/-- A match whose basic extraction fails yields the empty dict. -/
theorem process_nil_of_none (detailOf : String → Option DetailPage)
    (m : MatchElem) (h : extract_base m = none) :
    process_live_match_optimized detailOf m = [] := by
  unfold process_live_match_optimized
  rw [h]

/-! ## Claims -/

/-- C4 (corrected): the flag token transform (replace every `" mod-"`
with `""`, then every `"16"` with `"_"`) is the identity — hence
idempotent — on inputs containing neither substring, and maps
`"mod-us mod-16"` to `"mod-us_"`; but on the class string
`"flag mod-us mod-16"` it yields `"flagus_"` (the first replacement also
removes the space before each `mod-`), not `"flag us_"`. -/
theorem c4_flag_transform_amended :
    (∀ s : String, containsSub s.data " mod-".data = false →
      containsSub s.data "16".data = false →
      flag_transform s = s ∧ flag_transform (flag_transform s) = flag_transform s)
    ∧ flag_transform "mod-us mod-16" = "mod-us_"
    ∧ flag_transform "flag mod-us mod-16" = "flagus_" := by
  refine ⟨?_, by decide, by decide⟩
  intro s h1 h2
  have hfix : flag_transform s = s := by
    unfold flag_transform
    rw [pyReplaceStr_id _ _ _ h1, pyReplaceStr_id _ _ _ h2]
  exact ⟨hfix, by rw [hfix, hfix]⟩

/-- Witness for C4: a concrete input without either substring is fixed
by the transform. -/
theorem c4_flag_transform_amended_witness :
    containsSub "flagbr".data " mod-".data = false
    ∧ containsSub "flagbr".data "16".data = false
    ∧ flag_transform "flagbr" = "flagbr" :=
  ⟨by decide, by decide,
    (c4_flag_transform_amended.1 "flagbr" (by decide) (by decide)).1⟩

/-- C4 counterexample: on the fixture class string
`"flag mod-us mod-16"` the transform yields `"flagus_"`, not the claimed
`"flag us_"`. -/
theorem c4_counterexample :
    flag_transform "flag mod-us mod-16" = "flagus_"
    ∧ flag_transform "flag mod-us mod-16" ≠ "flag us_" :=
  ⟨by decide, by decide⟩

/-- C5 (confirmed): on a listing page with zero live-flagged entries the
aggregator returns `{status:"success"}` with exactly the one sentinel
record, all of whose fields are empty strings except
`klurgecustom = "no game is live"`. -/
theorem c5_no_live_sentinel (elems : List MatchElem)
    (detailOf : String → Option DetailPage)
    (h : elems.filter (fun m => m.isLive) = []) :
    get_live_matches_optimized (some elems) detailOf
        = Response.mk "success" (some [no_game_match]) none
    ∧ (∀ p ∈ no_game_match, p.1 ≠ "klurgecustom" → p.2 = "")
    ∧ List.lookup "klurgecustom" no_game_match = some "no game is live" := by
  refine ⟨?_, by decide, by decide⟩
  simp only [get_live_matches_optimized, h]
  rfl

/-- Witness for C5: a listing with a single non-live entry. -/
theorem c5_no_live_sentinel_witness :
    ([upcoming_match_elem].filter (fun m => m.isLive) = [])
    ∧ get_live_matches_optimized (some [upcoming_match_elem]) (fun _ => none)
        = Response.mk "success" (some [no_game_match]) none :=
  ⟨by decide,
   (c5_no_live_sentinel [upcoming_match_elem] (fun _ => none) (by decide)).1⟩

/-- C6 (confirmed): a cache read strictly less than 30 seconds after a
write returns exactly the written payload; a read 30 or more seconds
after the write reports the entry as absent. -/
theorem c6_cache_ttl {α : Type} (cache : CacheMap α) (key : String) (payload : α)
    (t0 t : ℚ) (hle : t0 ≤ t) :
    (t - t0 < 30 → get_from_cache (set_cache cache key payload t0) t key = some payload)
    ∧ (30 ≤ t - t0 → get_from_cache (set_cache cache key payload t0) t key = none) :=
  ⟨fun h => get_set_within cache key payload t0 t h,
   fun h => get_set_after cache key payload t0 t h⟩

/-- Witness for C6: a write at time 0 read back at 10 seconds (hit with
the exact payload) and at 31 seconds (absent). -/
theorem c6_cache_ttl_witness :
    ((0:ℚ) ≤ 10 ∧ (10:ℚ) - 0 < 30
      ∧ get_from_cache (set_cache (fun _ => none : CacheMap ℕ) "live_matches" 7 0) 10
          "live_matches" = some 7)
    ∧ ((0:ℚ) ≤ 31 ∧ (30:ℚ) ≤ 31 - 0
      ∧ get_from_cache (set_cache (fun _ => none : CacheMap ℕ) "live_matches" 7 0) 31
          "live_matches" = none) :=
  ⟨⟨by norm_num, by norm_num,
    (c6_cache_ttl (fun _ => none) "live_matches" 7 0 10 (by norm_num)).1 (by norm_num)⟩,
   ⟨by norm_num, by norm_num,
    (c6_cache_ttl (fun _ => none) "live_matches" 7 0 31 (by norm_num)).2 (by norm_num)⟩⟩

/-- C7 (confirmed): from reset stats, three successful tracked calls with
elapsed times 1s, 2s, 3s leave the running mean at exactly 2 and the
success count at 3; a subsequent failing tracked call increments the
failure count to 1 and leaves the mean unchanged. -/
theorem c7_stats_sequence :
    ((track_request (track_request (track_request reset_performance_stats
        (Except.ok () : Except Unit Unit) 1).1
        (Except.ok () : Except Unit Unit) 2).1
        (Except.ok () : Except Unit Unit) 3).1.average_response_time = 2
    ∧ (track_request (track_request (track_request reset_performance_stats
        (Except.ok () : Except Unit Unit) 1).1
        (Except.ok () : Except Unit Unit) 2).1
        (Except.ok () : Except Unit Unit) 3).1.successful_requests = 3)
    ∧ ((track_request (track_request (track_request (track_request reset_performance_stats
        (Except.ok () : Except Unit Unit) 1).1
        (Except.ok () : Except Unit Unit) 2).1
        (Except.ok () : Except Unit Unit) 3).1
        (Except.error () : Except Unit Unit) 5).1.failed_requests = 1
    ∧ (track_request (track_request (track_request (track_request reset_performance_stats
        (Except.ok () : Except Unit Unit) 1).1
        (Except.ok () : Except Unit Unit) 2).1
        (Except.ok () : Except Unit Unit) 3).1
        (Except.error () : Except Unit Unit) 5).1.average_response_time = 2) := by
  refine ⟨⟨?_, ?_⟩, ?_, ?_⟩ <;>
    norm_num [track_request, reset_performance_stats, initial_performance_stats]

/-- C9 (confirmed): the `cache_hits` and `cache_misses` counters start at
0 and no operation on the stats dict — a tracked call that succeeds or
fails, a snapshot read, or a reset — ever changes them away from 0, so
every snapshot reachable from the initial state reports both as 0. -/
theorem c9_cache_counters_zero :
    (initial_performance_stats.cache_hits = 0
      ∧ initial_performance_stats.cache_misses = 0)
    ∧ (∀ (s : Stats) (op : StatsOp), s.cache_hits = 0 → s.cache_misses = 0 →
        (apply_stats_op s op).cache_hits = 0 ∧ (apply_stats_op s op).cache_misses = 0)
    ∧ (∀ ops : List StatsOp,
        (get_performance_stats
            (ops.foldl apply_stats_op initial_performance_stats)).cache_hits = 0
        ∧ (get_performance_stats
            (ops.foldl apply_stats_op initial_performance_stats)).cache_misses = 0) := by
  have step : ∀ (s : Stats) (op : StatsOp), s.cache_hits = 0 → s.cache_misses = 0 →
      (apply_stats_op s op).cache_hits = 0 ∧ (apply_stats_op s op).cache_misses = 0 := by
    intro s op h1 h2
    cases op with
    | call failed t =>
      cases failed <;> simp [apply_stats_op, track_request, h1, h2]
    | reset => exact ⟨rfl, rfl⟩
    | snapshot => exact ⟨h1, h2⟩
  refine ⟨⟨rfl, rfl⟩, step, ?_⟩
  have main : ∀ (ops : List StatsOp) (s : Stats), s.cache_hits = 0 → s.cache_misses = 0 →
      (ops.foldl apply_stats_op s).cache_hits = 0
      ∧ (ops.foldl apply_stats_op s).cache_misses = 0 := by
    intro ops
    induction ops with
    | nil => intro s h1 h2; exact ⟨h1, h2⟩
    | cons op rest ih =>
      intro s h1 h2
      have hop := step s op h1 h2
      exact ih (apply_stats_op s op) hop.1 hop.2
  intro ops
  exact main ops initial_performance_stats rfl rfl

/-- Witness for C9: one successful tracked call on a concrete state with
zeroed cache counters keeps them at 0. -/
theorem c9_cache_counters_zero_witness :
    ((⟨5, 3, 2, 1, 0, 0⟩ : Stats).cache_hits = 0
      ∧ (⟨5, 3, 2, 1, 0, 0⟩ : Stats).cache_misses = 0)
    ∧ ((apply_stats_op (⟨5, 3, 2, 1, 0, 0⟩ : Stats) (StatsOp.call false 2)).cache_hits = 0
      ∧ (apply_stats_op (⟨5, 3, 2, 1, 0, 0⟩ : Stats)
          (StatsOp.call false 2)).cache_misses = 0) :=
  ⟨⟨rfl, rfl⟩,
   c9_cache_counters_zero.2.1 ⟨5, 3, 2, 1, 0, 0⟩ (StatsOp.call false 2) rfl rfl⟩

/-- C10 (confirmed): `total_requests = successful_requests +
failed_requests` holds after a reset and is preserved by every completed
tracked call: a normal return increments `successful_requests`, a raise
increments `failed_requests` and the exception is re-raised unchanged. -/
theorem c10_total_split_invariant :
    (reset_performance_stats.total_requests
        = reset_performance_stats.successful_requests
          + reset_performance_stats.failed_requests)
    ∧ (∀ (E A : Type) (s : Stats) (outcome : Except E A) (elapsed : ℚ),
        s.total_requests = s.successful_requests + s.failed_requests →
        ((track_request s outcome elapsed).1.total_requests
            = (track_request s outcome elapsed).1.successful_requests
              + (track_request s outcome elapsed).1.failed_requests
          ∧ (track_request s outcome elapsed).2 = outcome)) := by
  refine ⟨rfl, ?_⟩
  intro E A s outcome elapsed h
  cases outcome with
  | ok a =>
    constructor
    · simp [track_request]; omega
    · rfl
  | error e =>
    constructor
    · simp [track_request]; omega
    · rfl

/-- Witness for C10: one successful tracked call on a concrete state
satisfying the invariant preserves it and passes the result through. -/
theorem c10_total_split_invariant_witness :
    ((⟨5, 3, 2, 1, 0, 0⟩ : Stats).total_requests
        = (⟨5, 3, 2, 1, 0, 0⟩ : Stats).successful_requests
          + (⟨5, 3, 2, 1, 0, 0⟩ : Stats).failed_requests)
    ∧ ((track_request (⟨5, 3, 2, 1, 0, 0⟩ : Stats)
          (Except.ok 42 : Except String ℕ) 7).1.total_requests
        = (track_request (⟨5, 3, 2, 1, 0, 0⟩ : Stats)
            (Except.ok 42 : Except String ℕ) 7).1.successful_requests
          + (track_request (⟨5, 3, 2, 1, 0, 0⟩ : Stats)
              (Except.ok 42 : Except String ℕ) 7).1.failed_requests
      ∧ (track_request (⟨5, 3, 2, 1, 0, 0⟩ : Stats)
          (Except.ok 42 : Except String ℕ) 7).2 = Except.ok 42) :=
  ⟨by decide,
   c10_total_split_invariant.2 String ℕ ⟨5, 3, 2, 1, 0, 0⟩ (Except.ok 42) 7 (by decide)⟩

/-- C1 counterexample: with an empty cache and a failing listing fetch,
the aggregator returns the error envelope, the error envelope is found
in the cache 10 seconds later, and a second call at that instant returns
it as a cache hit — contradicting "this error result is not stored in
the Cache". -/
theorem c1_counterexample :
    (client_get_live_matches (fun _ => none : CacheMap Response) 0 none
        (fun _ => none)).1
      = Response.mk "error" none (some "Failed to fetch live matches")
    ∧ get_from_cache
        (client_get_live_matches (fun _ => none : CacheMap Response) 0 none
          (fun _ => none)).2 10 "live_matches"
      = some (Response.mk "error" none (some "Failed to fetch live matches"))
    ∧ (client_get_live_matches
        (client_get_live_matches (fun _ => none : CacheMap Response) 0 none
          (fun _ => none)).2 10 none (fun _ => none)).1
      = Response.mk "error" none (some "Failed to fetch live matches") := by
  have h1 : client_get_live_matches (fun _ => none : CacheMap Response) 0 none
      (fun _ => none)
      = (Response.mk "error" none (some "Failed to fetch live matches"),
         set_cache (fun _ => none) "live_matches"
           (Response.mk "error" none (some "Failed to fetch live matches")) 0) := by
    unfold client_get_live_matches
    rfl
  have h2 : get_from_cache
      (client_get_live_matches (fun _ => none : CacheMap Response) 0 none
        (fun _ => none)).2 10 "live_matches"
      = some (Response.mk "error" none (some "Failed to fetch live matches")) := by
    rw [h1]
    exact get_set_within _ _ _ _ _ (by norm_num)
  refine ⟨by rw [h1], h2, ?_⟩
  generalize hc : (client_get_live_matches (fun _ => none : CacheMap Response) 0 none
      (fun _ => none)).2 = c2 at h2
  unfold client_get_live_matches
  rw [h2]

/-- C1 (corrected): on a cache miss where the listing-page fetch fails,
`get_live_matches` returns `{status:"error", message}` — but, because the
scraper returns this envelope rather than raising, the error result IS
stored in the cache, and every subsequent call within the 30-second TTL
observes it as a cache hit. -/
theorem c1_error_result_is_cached (cache : CacheMap Response) (now t : ℚ)
    (detailOf : String → Option DetailPage)
    (hmiss : get_from_cache cache now "live_matches" = none)
    (hle : now ≤ t) (hlt : t - now < 30) :
    (client_get_live_matches cache now none detailOf).1
        = Response.mk "error" none (some "Failed to fetch live matches")
    ∧ get_from_cache (client_get_live_matches cache now none detailOf).2 t
        "live_matches"
        = some (Response.mk "error" none (some "Failed to fetch live matches"))
    ∧ (client_get_live_matches
        (client_get_live_matches cache now none detailOf).2 t none detailOf).1
        = Response.mk "error" none (some "Failed to fetch live matches") := by
  have h1 : client_get_live_matches cache now none detailOf
      = (Response.mk "error" none (some "Failed to fetch live matches"),
         set_cache cache "live_matches"
           (Response.mk "error" none (some "Failed to fetch live matches")) now) := by
    unfold client_get_live_matches
    rw [hmiss]
    rfl
  have h2 : get_from_cache (client_get_live_matches cache now none detailOf).2 t
      "live_matches"
      = some (Response.mk "error" none (some "Failed to fetch live matches")) := by
    rw [h1]
    exact get_set_within _ _ _ _ _ hlt
  refine ⟨by rw [h1], h2, ?_⟩
  generalize hc : (client_get_live_matches cache now none detailOf).2 = c2 at h2
  unfold client_get_live_matches
  rw [h2]

/-- Witness for C1: empty cache, fetch failure at time 0, second read at
10 seconds. -/
theorem c1_error_result_is_cached_witness :
    (get_from_cache (fun _ => none : CacheMap Response) 0 "live_matches" = none
      ∧ (0:ℚ) ≤ 10 ∧ (10:ℚ) - 0 < 30)
    ∧ ((client_get_live_matches (fun _ => none : CacheMap Response) 0 none
          (fun _ => none)).1
        = Response.mk "error" none (some "Failed to fetch live matches")
      ∧ get_from_cache
          (client_get_live_matches (fun _ => none : CacheMap Response) 0 none
            (fun _ => none)).2 10 "live_matches"
        = some (Response.mk "error" none (some "Failed to fetch live matches"))
      ∧ (client_get_live_matches
          (client_get_live_matches (fun _ => none : CacheMap Response) 0 none
            (fun _ => none)).2 10 none (fun _ => none)).1
        = Response.mk "error" none (some "Failed to fetch live matches")) :=
  ⟨⟨rfl, by norm_num, by norm_num⟩,
   c1_error_result_is_cached (fun _ => none) 0 10 (fun _ => none) rfl
     (by norm_num) (by norm_num)⟩

/-- C2 counterexample: an aggregator error envelope reaching the
live-matches route handler is delivered with status `"success"`, not
`"error"`. -/
theorem c2_counterexample :
    (router_get_live_matches
        (Response.mk "error" none (some "Failed to fetch live matches"))).status
      = "success"
    ∧ (router_get_live_matches
        (Response.mk "error" none (some "Failed to fetch live matches"))).status
      ≠ "error" :=
  ⟨by decide, by decide⟩

/-- C2 (corrected): whenever the aggregator yields
`{status:"error", message}` — which carries no `data` key — the
live-matches route handler's falsy-`data` check fires and the user
receives the fixed envelope `{status:"success", data:[],
message:"No live matches currently available."}`: the error is masked
and the delivered status is `"success"`, never `"error"`. -/
theorem c2_error_masked_as_success (msg : String) :
    router_get_live_matches (Response.mk "error" none (some msg))
      = Response.mk "success" (some [])
          (some "No live matches currently available.")
    ∧ (router_get_live_matches (Response.mk "error" none (some msg))).status
        = "success" :=
  ⟨rfl, rfl⟩

/-- C3 counterexample: with every attempt rate-limited (HTTP 429) and
the default 3 retries, the fetcher's sleep trace is `[1, 1, 2, 2, 4]`:
iteration 0 sleeps a total of 2 seconds before attempt 1, not the
claimed `2^0 = 1`. -/
theorem c3_counterexample :
    (make_request (fun _ => AttemptOutcome.response 429 "limited")).2 = [1, 1, 2, 2, 4]
    ∧ (sleeps_in_iteration (AttemptOutcome.response 429 "limited") 3 0).sum = 2
    ∧ (2 : ℕ) ≠ 2 ^ 0 :=
  ⟨by decide, by decide, by decide⟩

/-- C3 (corrected): between attempts `i` and `i+1` (with `i <
max_retries - 1`), a 429 makes the fetcher sleep `2^i` in the
rate-limit branch plus `2^i` in the uniform loop-footer backoff —
`2^(i+1)` in total — while any other non-200 status, a timeout or a
client error incurs exactly the uniform `2^i` backoff. -/
theorem c3_backoff_amended (max_retries i : ℕ) (h : i < max_retries - 1) :
    (∀ text : String,
      (sleeps_in_iteration (AttemptOutcome.response 429 text) max_retries i).sum
        = 2 ^ (i + 1))
    ∧ (∀ (status : ℕ) (text : String), status ≠ 429 → status ≠ 200 →
        (sleeps_in_iteration (AttemptOutcome.response status text) max_retries i).sum
          = 2 ^ i)
    ∧ (sleeps_in_iteration AttemptOutcome.timeout max_retries i).sum = 2 ^ i
    ∧ (sleeps_in_iteration AttemptOutcome.clientError max_retries i).sum = 2 ^ i := by
  refine ⟨?_, ?_, ?_, ?_⟩
  · intro text
    simp [sleeps_in_iteration, h, pow_succ]
    ring
  · intro status text hne _
    simp [sleeps_in_iteration, h, hne]
  · simp [sleeps_in_iteration, h]
  · simp [sleeps_in_iteration, h]

/-- Witness for C3: attempt 0 of the default 3, for a 429, a 503, a
timeout and a client error. -/
theorem c3_backoff_amended_witness :
    ((0:ℕ) < 3 - 1)
    ∧ (sleeps_in_iteration (AttemptOutcome.response 429 "limited") 3 0).sum = 2 ^ (0 + 1)
    ∧ (sleeps_in_iteration (AttemptOutcome.response 503 "err") 3 0).sum = 2 ^ 0
    ∧ (sleeps_in_iteration AttemptOutcome.timeout 3 0).sum = 2 ^ 0
    ∧ (sleeps_in_iteration AttemptOutcome.clientError 3 0).sum = 2 ^ 0 :=
  ⟨by decide,
   (c3_backoff_amended 3 0 (by decide)).1 "limited",
   (c3_backoff_amended 3 0 (by decide)).2.1 503 "err" (by decide) (by decide),
   (c3_backoff_amended 3 0 (by decide)).2.2.1,
   (c3_backoff_amended 3 0 (by decide)).2.2.2⟩

/-- C8 counterexample: in a two-match batch where match A's detail fetch
fails (its extraction succeeds) and match B fully succeeds, the final
list contains BOTH records — the detail-failed match is not "replaced by
an empty record and dropped"; it appears with `map_number` and
`current_map` equal to `"Unknown"` and an empty `team1_logo`. -/
theorem c8_counterexample :
    extract_base live_match_a = some base_a
    ∧ details_b_only "https://www.vlr.gg/m/1" = none
    ∧ ((get_live_matches_optimized (some [live_match_a, live_match_b])
          details_b_only).data.getD []).length = 2
    ∧ List.lookup "team1"
        (((get_live_matches_optimized (some [live_match_a, live_match_b])
            details_b_only).data.getD []).getD 0 [])
      = some "A1"
    ∧ List.lookup "map_number"
        (((get_live_matches_optimized (some [live_match_a, live_match_b])
            details_b_only).data.getD []).getD 0 [])
      = some "Unknown"
    ∧ List.lookup "current_map"
        (((get_live_matches_optimized (some [live_match_a, live_match_b])
            details_b_only).data.getD []).getD 0 [])
      = some "Unknown"
    ∧ List.lookup "team1_logo"
        (((get_live_matches_optimized (some [live_match_a, live_match_b])
            details_b_only).data.getD []).getD 0 [])
      = some "" :=
  ⟨by decide, by decide, by decide, by decide, by decide, by decide, by decide⟩

/-- C8 (corrected): in a batch of live matches, (1) a single match whose
extraction fails becomes the empty record and is dropped while all other
matches' records are returned (annotated) — other matches are never
affected; (2) whether a match is dropped never depends on the detail
oracle: a detail-fetch failure cannot empty a record; (3) a match whose
detail fetch fails is kept, with `map_number`/`current_map` equal to
`"Unknown"` and empty logo fields. -/
theorem c8_batch_isolation_amended :
    (∀ (detailOf : String → Option DetailPage) (pre post : List MatchElem)
        (x : MatchElem),
      (∀ m ∈ pre, m.isLive = true) → (∀ m ∈ post, m.isLive = true) →
      x.isLive = true → extract_base x = none →
      (∀ m ∈ pre, (extract_base m).isSome) → (∀ m ∈ post, (extract_base m).isSome) →
      get_live_matches_optimized (some (pre ++ x :: post)) detailOf
        = Response.mk "success"
            (some (annotate_all
              ((pre ++ post).map (process_live_match_optimized detailOf)))) none)
    ∧ (∀ (d1 d2 : String → Option DetailPage) (m : MatchElem),
        (process_live_match_optimized d1 m = []
          ↔ process_live_match_optimized d2 m = []))
    ∧ (∀ (detailOf : String → Option DetailPage) (b : BaseData),
        detailOf ("https://www.vlr.gg/" ++ b.href) = none →
        List.lookup "map_number" (build_record detailOf b) = some "Unknown"
        ∧ List.lookup "current_map" (build_record detailOf b) = some "Unknown"
        ∧ List.lookup "team1_logo" (build_record detailOf b) = some ""
        ∧ List.lookup "team2_logo" (build_record detailOf b) = some "") := by
  refine ⟨?_, ?_, ?_⟩
  · intro detailOf pre post x hpre hpost hxlive hxfail hpres hposts
    have hall : ∀ m ∈ pre ++ x :: post, m.isLive = true := by
      intro m hm
      rcases List.mem_append.mp hm with h1 | h2
      · exact hpre m h1
      · rcases List.mem_cons.mp h2 with rfl | h3
        · exact hxlive
        · exact hpost m h3
    have hfilter : (pre ++ x :: post).filter (fun m => m.isLive) = pre ++ x :: post :=
      List.filter_eq_self.mpr hall
    have hmapfilter :
        ((pre ++ x :: post).map (process_live_match_optimized detailOf)).filter
            (fun r => !List.isEmpty r)
          = (pre ++ post).map (process_live_match_optimized detailOf) := by
      rw [List.filter_map]
      have hfil : (pre ++ x :: post).filter
            ((fun r => !List.isEmpty r) ∘ process_live_match_optimized detailOf)
          = pre ++ post := by
        rw [List.filter_append, List.filter_cons]
        have hxdrop : ((fun r => !List.isEmpty r)
            ∘ process_live_match_optimized detailOf) x = false := by
          simp [Function.comp, process_nil_of_none detailOf x hxfail]
        rw [hxdrop]
        have hprekeep : pre.filter
              ((fun r => !List.isEmpty r) ∘ process_live_match_optimized detailOf)
            = pre := by
          apply List.filter_eq_self.mpr
          intro m hm
          simp [Function.comp]
          intro habs
          exact process_ne_nil_of_isSome detailOf m (hpres m hm) habs
        have hpostkeep : post.filter
              ((fun r => !List.isEmpty r) ∘ process_live_match_optimized detailOf)
            = post := by
          apply List.filter_eq_self.mpr
          intro m hm
          simp [Function.comp]
          intro habs
          exact process_ne_nil_of_isSome detailOf m (hposts m hm) habs
        rw [hprekeep, hpostkeep]
        simp
      rw [hfil]
    simp only [get_live_matches_optimized, hfilter]
    have hne : (pre ++ x :: post).isEmpty = false := by
      cases pre <;> rfl
    rw [hne]
    simp only [Bool.false_eq_true, if_false, hmapfilter]
  · intro d1 d2 m
    cases hb : extract_base m with
    | some b =>
      simp [process_live_match_optimized, hb, build_record_ne_nil]
    | none =>
      simp [process_live_match_optimized, hb]
  · intro detailOf b hd
    refine ⟨?_, ?_, ?_, ?_⟩ <;>
      simp [build_record, hd, get_match_details, List.lookup]

/-- Witness for C8: batch `[B, bad]` where `bad` has no `href` (its
extraction fails): only B's record is returned; and the detail-failed
basic data `base_a` keeps its record with the default detail fields. -/
theorem c8_batch_isolation_amended_witness :
    ((∀ m ∈ [live_match_b], m.isLive = true)
      ∧ (∀ m ∈ ([] : List MatchElem), m.isLive = true)
      ∧ live_match_bad.isLive = true
      ∧ extract_base live_match_bad = none
      ∧ (∀ m ∈ [live_match_b], (extract_base m).isSome)
      ∧ (∀ m ∈ ([] : List MatchElem), (extract_base m).isSome)
      ∧ details_b_only ("https://www.vlr.gg/" ++ base_a.href) = none)
    ∧ get_live_matches_optimized (some ([live_match_b] ++ live_match_bad :: []))
        details_b_only
        = Response.mk "success"
            (some (annotate_all
              (([live_match_b] ++ ([] : List MatchElem)).map
                (process_live_match_optimized details_b_only)))) none
    ∧ (List.lookup "map_number" (build_record details_b_only base_a) = some "Unknown"
      ∧ List.lookup "current_map" (build_record details_b_only base_a) = some "Unknown"
      ∧ List.lookup "team1_logo" (build_record details_b_only base_a) = some ""
      ∧ List.lookup "team2_logo" (build_record details_b_only base_a) = some "") :=
  ⟨⟨by decide, by decide, by decide, by decide, by decide, by decide, by decide⟩,
   c8_batch_isolation_amended.1 details_b_only [live_match_b] [] live_match_bad
     (by decide) (by decide) (by decide) (by decide) (by decide) (by decide),
   c8_batch_isolation_amended.2.2 details_b_only base_a (by decide)⟩
